import Mathlib

/-! # sniffer.go: options, construction, the refresh loop and shutdown

A shallow embedding of `sniffer.go` (package `main`).  The file holds the
`Options` record with its `Validate` method, the constructor `NewSniffer`, and the
three methods `Start`, `Close` and `Refresh` of `Sniffer`.

Everything the file calls but does not define (the validators of `ViewMode` and
`Unit`, the constructors of the collaborators, and the collaborators' methods) is a
parameter of the embedding: a function on an abstract world state.  Every call to
such a function is also written to a call log, so that order and number of calls can
be stated.
-/

namespace SnifferMain

/-! ## Options -/

/-- The Go struct `Options`.  `VM` and `U` stand for the types `ViewMode` and `Unit`,
which are declared outside `sniffer.go`.  Go `int` is `Int`. -/
structure Options (VM U : Type) where
  BPFFilter : String
  Interval : Int
  ViewMode : VM
  DevicesPrefix : List String
  Pids : List Int
  Unit : U
  DisableDNSResolve : Bool

/-- The declarations `Options.Validate` and `DefaultOptions` use and `sniffer.go` does
not contain.  A Go `error` is `Option E`, with `none` for `nil`. -/
structure Decls (VM U E : Type) where
  ViewModeValidate : VM → Option E
  UnitValidate : U → Option E
  ModeTableBytes : VM
  UnitKB : U

/-- The method `func (o Options) Validate() error`. -/
def Options.Validate {VM U E : Type} (d : Decls VM U E) (o : Options VM U) : Option E :=
  match d.ViewModeValidate o.ViewMode with
  | some err => some err
  | none =>
    match d.UnitValidate o.Unit with
    | some err => some err
    | none => none

/-- The function `DefaultOptions`.  The fields `DevicesPrefix` and `Pids` are not
named in the Go literal and get their zero value, the nil slice. -/
def DefaultOptions {VM U E : Type} (d : Decls VM U E) : Options VM U :=
  { BPFFilter := "tcp or udp"
    Interval := 1
    ViewMode := d.ModeTableBytes
    DevicesPrefix := []
    Pids := []
    Unit := d.UnitKB
    DisableDNSResolve := false }

/-! ## Collaborators of a running sniffer -/

/-- The Go struct `Stat`, built in `Refresh`.  `Socks` is the type of the first result
of `GetOpenSockets` and `Util` the result type of `GetUtilization`. -/
structure Stat (Socks Util : Type) where
  OpenSockets : Socks
  Utilization : Util
  deriving DecidableEq

/-- The methods `Start`, `Close` and `Refresh` call on the fields of the sniffer, none
of them defined in `sniffer.go`.  Each one is a function on the state `σ` of the
world outside the sniffer; a Go result pair `(value, error)` is kept as a pair. -/
structure Collab (σ Util Socks Stats Err : Type) where
  /-- The call `s.pcapClient.GetUtilization()`. -/
  GetUtilization : σ → Util × σ
  /-- The call `s.socketFetcher.GetOpenSockets()`. -/
  GetOpenSockets : σ → (Socks × Option Err) × σ
  /-- The call `s.statsManager.Put(stat)`. -/
  Put : Stat Socks Util → σ → σ
  /-- The call `s.statsManager.GetStats()`. -/
  GetStats : σ → Stats × σ
  /-- The call `s.ui.viewer.Render(stats)`. -/
  Render : Stats → σ → σ
  /-- The call `s.ui.viewer.Shift()`. -/
  Shift : σ → σ
  /-- The call `s.ui.viewer.Resize(width, height)`. -/
  Resize : Int → Int → σ → σ
  /-- The call `s.pcapClient.Close()`. -/
  PcapClose : σ → σ
  /-- The call `s.dnsResolver.Close()`. -/
  DnsClose : σ → σ
  /-- The call `s.ui.Close()`. -/
  UiClose : σ → σ

/-- One entry of the call log: which collaborator method ran, with the value it
received or returned. -/
inductive Call (Util Socks Stats Err : Type) where
  | GetUtilization (ret : Util)
  | GetOpenSockets (ret : Socks × Option Err)
  | Put (stat : Stat Socks Util)
  | GetStats (ret : Stats)
  | Render (arg : Stats)
  | Shift
  | Resize (width height : Int)
  | PcapClose
  | DnsClose
  | UiClose
  deriving DecidableEq

/-- Is the entry a call of `GetUtilization` (a drain of the counters)? -/
def Call.isGetUtilization {Util Socks Stats Err : Type} : Call Util Socks Stats Err → Bool
  | .GetUtilization _ => true
  | _ => false

/-- Is the entry a call of `Put`? -/
def Call.isPut {Util Socks Stats Err : Type} : Call Util Socks Stats Err → Bool
  | .Put _ => true
  | _ => false

/-- Is the entry a call of `Render`? -/
def Call.isRender {Util Socks Stats Err : Type} : Call Util Socks Stats Err → Bool
  | .Render _ => true
  | _ => false

/-- Number of `GetUtilization` calls in a log. -/
def drains {Util Socks Stats Err : Type} (calls : List (Call Util Socks Stats Err)) : Nat :=
  calls.countP Call.isGetUtilization

/-- Number of `Put` calls in a log. -/
def puts {Util Socks Stats Err : Type} (calls : List (Call Util Socks Stats Err)) : Nat :=
  calls.countP Call.isPut

/-- The world outside the sniffer together with the log of the calls made so far. -/
structure Exec (σ Util Socks Stats Err : Type) where
  world : σ
  calls : List (Call Util Socks Stats Err)

section Methods

variable {σ Util Socks Stats Err : Type}

/-- The method `func (s *Sniffer) Refresh()`. -/
def Sniffer.Refresh (c : Collab σ Util Socks Stats Err) (x : Exec σ Util Socks Stats Err) :
    Exec σ Util Socks Stats Err :=
  let (utilization, w1) := c.GetUtilization x.world
  let ((openSockets, err), w2) := c.GetOpenSockets w1
  match err with
  | some e =>
    { world := w2
      calls := x.calls ++ [.GetUtilization utilization, .GetOpenSockets (openSockets, some e)] }
  | none =>
    let stat : Stat Socks Util := { OpenSockets := openSockets, Utilization := utilization }
    let w3 := c.Put stat w2
    let (stats, w4) := c.GetStats w3
    let w5 := c.Render stats w4
    { world := w5
      calls := x.calls ++ [.GetUtilization utilization, .GetOpenSockets (openSockets, none),
        .Put stat, .GetStats stats, .Render stats] }

/-- The method `func (s *Sniffer) Close()`. -/
def Sniffer.Close (c : Collab σ Util Socks Stats Err) (x : Exec σ Util Socks Stats Err) :
    Exec σ Util Socks Stats Err :=
  let w1 := c.PcapClose x.world
  let w2 := c.DnsClose w1
  let w3 := c.UiClose w2
  { world := w3, calls := x.calls ++ [.PcapClose, .DnsClose, .UiClose] }

/-! ## The loop of `Start` -/

/-- The dynamic value in `termui.Event.Payload`: a `termui.Resize` or anything else. -/
inductive Payload where
  | Resize (Width Height : Int)
  | Other
  deriving DecidableEq, Repr

/-- A `termui.Event`, with the two fields `Start` reads. -/
structure Event where
  ID : String
  Payload : Payload
  deriving DecidableEq, Repr

/-- What one round of the `select` receives: an event from `events` or a tick from
`ticker`. -/
inductive Input where
  | event (e : Event)
  | tick
  deriving DecidableEq, Repr

/-- Where `Start` stands: still in the loop, returned, or stopped by the panic of the
type assertion `e.Payload.(termui.Resize)`. -/
inductive Status where
  | running
  | returned
  | panicked
  deriving DecidableEq, Repr

/-- The state of `Start` between two rounds of the loop: the world and the log, the
local variable `paused`, and the status. -/
structure Loop (σ Util Socks Stats Err : Type) where
  exec : Exec σ Util Socks Stats Err
  paused : Bool
  status : Status

/-- The statements of `Start` before the loop: `s.Refresh()`, then `var paused bool`. -/
def Start.init (c : Collab σ Util Socks Stats Err) (x : Exec σ Util Socks Stats Err) :
    Loop σ Util Socks Stats Err :=
  { exec := Sniffer.Refresh c x, paused := false, status := .running }

/-- One round of the loop of `Start`: the `select` with its two cases. -/
def Start.step (c : Collab σ Util Socks Stats Err) (l : Loop σ Util Socks Stats Err) :
    Input → Loop σ Util Socks Stats Err
  | .event e =>
    if e.ID = "<Tab>" then
      { l with exec := { world := c.Shift l.exec.world, calls := l.exec.calls ++ [.Shift] } }
    else if e.ID = "<Space>" then
      { l with paused := !l.paused }
    else if e.ID = "<Resize>" then
      match e.Payload with
      | .Resize width height =>
        { l with exec := { world := c.Resize width height l.exec.world,
                           calls := l.exec.calls ++ [.Resize width height] } }
      | .Other => { l with status := .panicked }
    else if e.ID = "q" ∨ e.ID = "Q" ∨ e.ID = "<C-c>" then
      { l with status := .returned }
    else
      l
  | .tick =>
    if !l.paused then
      { l with exec := Sniffer.Refresh c l.exec }
    else
      l

/-- The loop of `Start` on the inputs received so far; nothing is received once the
loop has been left. -/
def Start.loop (c : Collab σ Util Socks Stats Err) :
    Loop σ Util Socks Stats Err → List Input → Loop σ Util Socks Stats Err
  | l, [] => l
  | l, i :: rest =>
    match l.status with
    | .running => Start.loop c (Start.step c l i) rest
    | _ => l

/-- The method `func (s *Sniffer) Start()`, run on the inputs received so far. -/
def Sniffer.Start (c : Collab σ Util Socks Stats Err) (x : Exec σ Util Socks Stats Err)
    (inputs : List Input) : Loop σ Util Socks Stats Err :=
  Start.loop c (Start.init c x) inputs

end Methods

/-! ## Construction -/

/-- The Go struct `Sniffer`.  The five type parameters after `U` stand for
`*DNSResolver`, `*PcapClient`, `*StatsManager`, `*UIComponent` and `SocketFetcher`,
all declared outside `sniffer.go`. -/
structure Sniffer (VM U DR PC SM UI SF : Type) where
  opts : Options VM U
  dnsResolver : DR
  pcapClient : PC
  statsManager : SM
  ui : UI
  socketFetcher : SF

/-- The constructors `NewSniffer` calls, none of them defined in `sniffer.go`, as
functions on the world state `σ`.  `Lookup` is the method value
`dnsResolver.Lookup` handed to `NewPcapClient`. -/
structure Ctors (σ VM U DR PC SM UI SF L E : Type) where
  NewDnsResolver : σ → DR × σ
  Lookup : DR → L
  NewPcapClient : L → Options VM U → σ → (PC × Option E) × σ
  NewStatsManager : Options VM U → σ → SM × σ
  NewUIComponent : Options VM U → σ → UI × σ
  GetSocketFetcher : σ → SF × σ

/-- One entry of the log of constructor calls. -/
inductive CtorCall where
  | NewDnsResolver
  | NewPcapClient
  | NewStatsManager
  | NewUIComponent
  | GetSocketFetcher
  deriving DecidableEq, Repr

/-- What a call of `NewSniffer` leaves: the two results (`none` is `nil`), the world,
and the constructors called, in order. -/
structure Built (σ VM U DR PC SM UI SF E : Type) where
  sniffer : Option (Sniffer VM U DR PC SM UI SF)
  err : Option E
  world : σ
  calls : List CtorCall

/-- The function `func NewSniffer(opts Options) (*Sniffer, error)`.  The calls inside
the composite literal run in the order of the fields. -/
def NewSniffer {σ VM U DR PC SM UI SF L E : Type} (k : Ctors σ VM U DR PC SM UI SF L E)
    (opts : Options VM U) (w : σ) : Built σ VM U DR PC SM UI SF E :=
  let (dnsResolver, w1) := k.NewDnsResolver w
  let ((pcapClient, err), w2) := k.NewPcapClient (k.Lookup dnsResolver) opts w1
  match err with
  | some e =>
    { sniffer := none, err := some e, world := w2,
      calls := [.NewDnsResolver, .NewPcapClient] }
  | none =>
    let (statsManager, w3) := k.NewStatsManager opts w2
    let (ui, w4) := k.NewUIComponent opts w3
    let (socketFetcher, w5) := k.GetSocketFetcher w4
    { sniffer := some
        { opts := opts
          dnsResolver := dnsResolver
          pcapClient := pcapClient
          statsManager := statsManager
          ui := ui
          socketFetcher := socketFetcher }
      err := none
      world := w5
      calls := [.NewDnsResolver, .NewPcapClient, .NewStatsManager, .NewUIComponent,
        .GetSocketFetcher] }

/-! ## A concrete world

The collaborators are declared outside `sniffer.go`.  The instance below follows the
specification of the pipeline and is used to evaluate the definitions above at
concrete inputs. -/

/-- Modelled from the spec: `ViewMode` is declared outside `sniffer.go`; the spec
leaves it to the display layer, and the doc comment of `Options.ViewMode` lists the
modes bytes, packets and processes.  `invalid` stands for any other value. -/
inductive ViewMode where
  | bytes
  | packets
  | processes
  | invalid
  deriving DecidableEq, Repr

/-- Modelled from the spec: `Unit` is declared outside `sniffer.go`; the spec leaves
the counter display unit to the display layer, and the doc comment of `Options.Unit`
lists B, KB, MB and GB.  `invalid` stands for any other value. -/
inductive StatUnit where
  | B
  | KB
  | MB
  | GB
  | invalid
  deriving DecidableEq, Repr

/-- Modelled from the spec: `ViewMode.Validate`, `Unit.Validate`, `ModeTableBytes` and
`UnitKB` are declared outside `sniffer.go`; a value is valid when it is one of those
the doc comments of `Options` list. -/
def specDecls : Decls ViewMode StatUnit String :=
  { ViewModeValidate := fun vm => if vm = .invalid then some "invalid view mode" else none
    UnitValidate := fun u => if u = .invalid then some "invalid unit" else none
    ModeTableBytes := .bytes
    UnitKB := .KB }

/-- The failures of the spec's error taxonomy that the models below produce. -/
inductive Failure where
  | DeviceUnavailable
  | PermissionDenied
  | Unsupported
  deriving DecidableEq, Repr

/-- A `Stat` of the concrete world: socket ids and a byte total. -/
abbrev WStat := Stat (List Nat) Nat

/-- Modelled from the spec: the state behind `PcapClient`, `SocketFetcher`,
`StatsManager`, `UIComponent` and `DNSResolver`, all declared outside `sniffer.go`:
the counters accumulated since the previous drain, the socket table and the failure
its snapshot hits, the bounded rolling window of the aggregator, what the display
shows, and the resources `Close` releases. -/
structure World where
  counters : Nat
  sockets : List Nat
  snapshotFailure : Option Failure
  capacity : Nat
  window : List WStat
  screen : List WStat
  view : Nat
  width : Int
  height : Int
  captureHandle : Bool
  resolutions : Nat
  resolverResources : Bool
  terminal : Bool
  deriving DecidableEq

/-- Modelled from the spec: the methods of the collaborators, declared outside
`sniffer.go`.  `GetUtilization` is `Drain` (reads and clears the counters);
`GetOpenSockets` is `Snapshot` (the socket list, or an error); `Put` inserts into the
rolling window and evicts the oldest entries once it is full; `GetStats` reads the
window; `Render`, `Shift` and `Resize` change only the display; `PcapClient.Close`
releases the capture handle, `DNSResolver.Close` cancels the outstanding resolutions
and releases the resources, `UIComponent.Close` releases the terminal. -/
def specCollab : Collab World Nat (List Nat) (List WStat) Failure :=
  { GetUtilization := fun w => (w.counters, { w with counters := 0 })
    GetOpenSockets := fun w =>
      match w.snapshotFailure with
      | some f => (([], some f), w)
      | none => ((w.sockets, none), w)
    Put := fun stat w =>
      { w with window := (w.window ++ [stat]).drop ((w.window ++ [stat]).length - w.capacity) }
    GetStats := fun w => (w.window, w)
    Render := fun stats w => { w with screen := stats }
    Shift := fun w => { w with view := (w.view + 1) % 3 }
    Resize := fun width height w => { w with width := width, height := height }
    PcapClose := fun w => { w with captureHandle := false }
    DnsClose := fun w => { w with resolutions := 0, resolverResources := false }
    UiClose := fun w => { w with terminal := false } }

/-- A world in which 7 bytes wait to be drained, with an optional snapshot failure. -/
def world0 (failure : Option Failure) : World :=
  { counters := 7
    sockets := [80, 443]
    snapshotFailure := failure
    capacity := 3
    window := []
    screen := []
    view := 0
    width := 80
    height := 24
    captureHandle := true
    resolutions := 2
    resolverResources := true
    terminal := true }

/-- The concrete world with an empty call log. -/
def exec0 (failure : Option Failure) : Exec World Nat (List Nat) (List WStat) Failure :=
  { world := world0 failure, calls := [] }

/-- The host a sniffer is constructed on, for the concrete constructors. -/
structure Host where
  privileged : Bool
  devices : List String
  resolvers : Nat
  handles : Nat
  managers : Nat
  terminals : Nat
  fetchers : Nat
  deriving DecidableEq

/-- Modelled from the spec: the constructors `NewDnsResolver`, `NewPcapClient`,
`NewStatsManager`, `NewUIComponent` and `GetSocketFetcher`, declared outside
`sniffer.go`.  Opening the capture fails with `PermissionDenied` when capture
privileges are insufficient and with `DeviceUnavailable` when no interface matches
the name-prefix allowlist (empty = all); each constructor returns the number of the
object it made. -/
def specCtors : Ctors Host ViewMode StatUnit Nat Nat Nat Nat Nat Nat Failure :=
  { NewDnsResolver := fun h => (h.resolvers + 1, { h with resolvers := h.resolvers + 1 })
    Lookup := fun dr => dr
    NewPcapClient := fun _ opts h =>
      if !h.privileged then ((0, some .PermissionDenied), h)
      else if (h.devices.filter
          (fun d => opts.DevicesPrefix.isEmpty || opts.DevicesPrefix.any (fun p => p.isPrefixOf d))).isEmpty
        then ((0, some .DeviceUnavailable), h)
      else ((h.handles + 1, none), { h with handles := h.handles + 1 })
    NewStatsManager := fun _ h => (h.managers + 1, { h with managers := h.managers + 1 })
    NewUIComponent := fun _ h => (h.terminals + 1, { h with terminals := h.terminals + 1 })
    GetSocketFetcher := fun h => (h.fetchers + 1, { h with fetchers := h.fetchers + 1 }) }

/-- A host with one interface and nothing constructed yet. -/
def host0 (privileged : Bool) : Host :=
  { privileged := privileged, devices := ["eth0"], resolvers := 0, handles := 0,
    managers := 0, terminals := 0, fetchers := 0 }

/-! ## A collaborator whose `Close` is not idempotent -/

/-- A collaborator over a world that is one number, the count of the calls of
`dnsResolver.Close` so far: every call of `DnsClose` adds one, and no other method
changes the world.  `sniffer.go` asks nothing of the `Close` methods it calls, so this
is one of the collaborators `Sniffer.Close` can be run with. -/
def tallyCollab : Collab Nat Unit Unit Unit Unit :=
  { GetUtilization := fun n => ((), n)
    GetOpenSockets := fun n => (((), none), n)
    Put := fun _ n => n
    GetStats := fun n => ((), n)
    Render := fun _ n => n
    Shift := fun n => n
    Resize := fun _ _ n => n
    PcapClose := fun n => n
    DnsClose := fun n => n + 1
    UiClose := fun n => n }

/-- The world of `tallyCollab` before any `Close`, with an empty call log. -/
def tally0 : Exec Nat Unit Unit Unit Unit :=
  { world := 0, calls := [] }

/-! ## Counting what the loop received -/

/-- Is the input a `"<Space>"` event? -/
def Input.isSpace : Input → Bool
  | .event e => decide (e.ID = "<Space>")
  | .tick => false

/-- Number of `"<Space>"` events among the inputs. -/
def spaceEvents (inputs : List Input) : Nat :=
  inputs.countP Input.isSpace

/-- Is the event one of the three that make `Start` return? -/
def Event.isQuit (e : Event) : Prop :=
  e.ID = "q" ∨ e.ID = "Q" ∨ e.ID = "<C-c>"

instance (e : Event) : Decidable e.isQuit := by
  unfold Event.isQuit
  exact inferInstance

/-- Resize events carry a `termui.Resize`, as the events termui delivers do. -/
def Input.wellFormed : Input → Prop
  | .event e => e.ID = "<Resize>" → ∃ width height, e.Payload = .Resize width height
  | .tick => True

section Counting

variable {σ Util Socks Stats Err : Type}

/-- Number of positions `n` of `inputs` that hold a tick which the loop, started in
`l`, receives while it is running with `paused` false: the state is read after the
`n` inputs before the tick. -/
def unpausedTicksFrom (c : Collab σ Util Socks Stats Err) (l : Loop σ Util Socks Stats Err)
    (inputs : List Input) : Nat :=
  (List.range inputs.length).countP (fun n =>
    decide (inputs.get? n = some .tick) &&
    (decide ((Start.loop c l (inputs.take n)).status = .running) &&
      !(Start.loop c l (inputs.take n)).paused))

/-- Number of ticks `Start` receives while `paused` is false. -/
def unpausedTicks (c : Collab σ Util Socks Stats Err) (x : Exec σ Util Socks Stats Err)
    (inputs : List Input) : Nat :=
  unpausedTicksFrom c (Start.init c x) inputs

end Counting

/-! ## Lemmas on `Refresh` -/

section RefreshLemmas

variable {σ Util Socks Stats Err : Type}

theorem Refresh_of_failure (c : Collab σ Util Socks Stats Err) (x : Exec σ Util Socks Stats Err)
    {u : Util} {w1 w2 : σ} {socks : Socks} {e : Err}
    (hu : c.GetUtilization x.world = (u, w1))
    (hs : c.GetOpenSockets w1 = ((socks, some e), w2)) :
    Sniffer.Refresh c x =
      { world := w2
        calls := x.calls ++ [.GetUtilization u, .GetOpenSockets (socks, some e)] } := by
  simp only [Sniffer.Refresh, hu, hs]

theorem Refresh_of_success (c : Collab σ Util Socks Stats Err) (x : Exec σ Util Socks Stats Err)
    {u : Util} {w1 w2 w4 : σ} {socks : Socks} {stats : Stats}
    (hu : c.GetUtilization x.world = (u, w1))
    (hs : c.GetOpenSockets w1 = ((socks, none), w2))
    (hg : c.GetStats (c.Put { OpenSockets := socks, Utilization := u } w2) = (stats, w4)) :
    Sniffer.Refresh c x =
      { world := c.Render stats w4
        calls := x.calls ++ [.GetUtilization u, .GetOpenSockets (socks, none),
          .Put { OpenSockets := socks, Utilization := u }, .GetStats stats, .Render stats] } := by
  simp only [Sniffer.Refresh, hu, hs, hg]

theorem drains_Refresh (c : Collab σ Util Socks Stats Err) (x : Exec σ Util Socks Stats Err) :
    drains (Sniffer.Refresh c x).calls = drains x.calls + 1 := by
  rcases hu : c.GetUtilization x.world with ⟨u, w1⟩
  rcases hs : c.GetOpenSockets w1 with ⟨⟨socks, err⟩, w2⟩
  cases err with
  | some e =>
    rw [Refresh_of_failure c x hu hs]
    simp [drains, List.countP_append, List.countP_cons, Call.isGetUtilization]
  | none =>
    rcases hg : c.GetStats (c.Put { OpenSockets := socks, Utilization := u } w2) with ⟨stats, w4⟩
    rw [Refresh_of_success c x hu hs hg]
    simp [drains, List.countP_append, List.countP_cons, Call.isGetUtilization]

end RefreshLemmas

/-! ## `Options.Validate` -/

/-- C9: `Options.Validate` returns nil exactly when `ViewMode.Validate` and
`Unit.Validate` both return nil; an error of `ViewMode.Validate` is returned whatever
`Unit.Validate` would say; when only `Unit.Validate` fails its error is returned; and
two option values with the same `ViewMode` and `Unit` get the same verdict, so no other
field influences it. -/
theorem Validate_depends_on_ViewMode_and_Unit {VM U E : Type} (d : Decls VM U E)
    (o : Options VM U) :
    (Options.Validate d o = none ↔
      d.ViewModeValidate o.ViewMode = none ∧ d.UnitValidate o.Unit = none) ∧
    (∀ e, d.ViewModeValidate o.ViewMode = some e →
      ∀ unitValidate : U → Option E,
        Options.Validate { d with UnitValidate := unitValidate } o = some e) ∧
    (∀ e, d.ViewModeValidate o.ViewMode = none → d.UnitValidate o.Unit = some e →
      Options.Validate d o = some e) ∧
    (∀ o2 : Options VM U, o2.ViewMode = o.ViewMode → o2.Unit = o.Unit →
      Options.Validate d o2 = Options.Validate d o) := by
  refine ⟨?_, ?_, ?_, ?_⟩
  · unfold Options.Validate
    cases hv : d.ViewModeValidate o.ViewMode <;> cases hu : d.UnitValidate o.Unit <;> simp
  · intro e hv unitValidate
    simp only [Options.Validate, hv]
  · intro e hv hu
    simp only [Options.Validate, hv, hu]
  · intro o2 hv hu
    simp only [Options.Validate, hv, hu]

/-- C9, at concrete options: the default options are accepted; with an invalid view
mode the view-mode error comes back even under a unit validator that rejects
everything; with only the unit invalid the unit error comes back. -/
theorem Validate_depends_on_ViewMode_and_Unit_witness :
    Options.Validate specDecls (DefaultOptions specDecls) = none ∧
    Options.Validate { specDecls with UnitValidate := fun _ => some "unit" }
      { DefaultOptions specDecls with ViewMode := .invalid } = some "invalid view mode" ∧
    Options.Validate specDecls { DefaultOptions specDecls with Unit := .invalid } =
      some "invalid unit" ∧
    Options.Validate specDecls
      { DefaultOptions specDecls with BPFFilter := "", Interval := -3, Pids := [1] } =
      Options.Validate specDecls (DefaultOptions specDecls) :=
  ⟨(Validate_depends_on_ViewMode_and_Unit specDecls (DefaultOptions specDecls)).1.2
      ⟨by decide, by decide⟩,
   (Validate_depends_on_ViewMode_and_Unit specDecls
      { DefaultOptions specDecls with ViewMode := .invalid }).2.1 _ (by decide) _,
   (Validate_depends_on_ViewMode_and_Unit specDecls
      { DefaultOptions specDecls with Unit := .invalid }).2.2.1 _ (by decide) (by decide),
   (Validate_depends_on_ViewMode_and_Unit specDecls (DefaultOptions specDecls)).2.2.2
      _ rfl rfl⟩

/-- C7 fails as stated: the default options with `Interval` set to 0 are accepted by
`Options.Validate`, and so are they with `Interval` set to -5. -/
theorem Validate_accepts_Interval_zero :
    Options.Validate specDecls { DefaultOptions specDecls with Interval := 0 } = none ∧
    ¬ (0 < ({ DefaultOptions specDecls with Interval := 0 } :
        Options ViewMode StatUnit).Interval) ∧
    Options.Validate specDecls { DefaultOptions specDecls with Interval := -5 } = none := by
  decide

/-- C7 as amended: `Options.Validate` does not read `Interval`: replacing the
`Interval` of an options value by any integer leaves the result of `Validate`
unchanged. -/
theorem Validate_ignores_Interval {VM U E : Type} (d : Decls VM U E) (o : Options VM U)
    (i : Int) :
    Options.Validate d { o with Interval := i } = Options.Validate d o ∧
    (Options.Validate d { o with Interval := i } = none ↔
      d.ViewModeValidate o.ViewMode = none ∧ d.UnitValidate o.Unit = none) := by
  refine ⟨by simp only [Options.Validate], ?_⟩
  simp only [Options.Validate]
  cases hv : d.ViewModeValidate o.ViewMode <;> cases hu : d.UnitValidate o.Unit <;> simp

/-! ## `Refresh` -/

section RefreshClaims

variable {σ Util Socks Stats Err : Type}

/-- C2: when `GetOpenSockets` succeeds, `Refresh` makes exactly the calls
`GetUtilization`, `GetOpenSockets`, `Put`, `GetStats`, `Render`, in this order: one
`Stat` is put, holding the sockets `GetOpenSockets` returned and the utilization
`GetUtilization` returned in this same `Refresh`, and the value rendered is the result
of `GetStats` read in the world that `Put` left. -/
theorem Refresh_puts_one_Stat (c : Collab σ Util Socks Stats Err)
    (x : Exec σ Util Socks Stats Err) (u : Util) (w1 w2 w4 : σ) (socks : Socks)
    (stats : Stats)
    (hu : c.GetUtilization x.world = (u, w1))
    (hs : c.GetOpenSockets w1 = ((socks, none), w2))
    (hg : c.GetStats (c.Put { OpenSockets := socks, Utilization := u } w2) = (stats, w4)) :
    (Sniffer.Refresh c x).calls =
      x.calls ++ [.GetUtilization u, .GetOpenSockets (socks, none),
        .Put { OpenSockets := socks, Utilization := u }, .GetStats stats, .Render stats] ∧
    puts (Sniffer.Refresh c x).calls = puts x.calls + 1 ∧
    (Sniffer.Refresh c x).world = c.Render stats w4 := by
  rw [Refresh_of_success c x hu hs hg]
  refine ⟨rfl, ?_, rfl⟩
  simp [puts, List.countP_append, List.countP_cons, Call.isPut]

/-- C2, in the concrete world: 7 bytes are drained, the snapshot succeeds, and the
stat put and rendered holds the two sockets and the 7 bytes. -/
theorem Refresh_puts_one_Stat_witness :
    (Sniffer.Refresh specCollab (exec0 none)).calls =
      [.GetUtilization 7, .GetOpenSockets ([80, 443], none),
        .Put { OpenSockets := [80, 443], Utilization := 7 },
        .GetStats [{ OpenSockets := [80, 443], Utilization := 7 }],
        .Render [{ OpenSockets := [80, 443], Utilization := 7 }]] ∧
    puts (Sniffer.Refresh specCollab (exec0 none)).calls = 1 ∧
    (Sniffer.Refresh specCollab (exec0 none)).world =
      { world0 none with
        counters := 0
        window := [{ OpenSockets := [80, 443], Utilization := 7 }]
        screen := [{ OpenSockets := [80, 443], Utilization := 7 }] } :=
  Refresh_puts_one_Stat specCollab (exec0 none) 7 { world0 none with counters := 0 }
    { world0 none with counters := 0 }
    { world0 none with
      counters := 0, window := [{ OpenSockets := [80, 443], Utilization := 7 }] }
    [80, 443] [{ OpenSockets := [80, 443], Utilization := 7 }] rfl rfl rfl

/-- C3 fails as stated: in a world where 7 bytes wait to be drained and the snapshot
fails with `Unsupported`, `Refresh` calls `GetUtilization` and `GetOpenSockets` and
nothing else: no `Stat` is put, the window of the stats manager and the screen stay
empty, and the counters have been cleared. -/
theorem Refresh_failure_puts_nothing :
    (Sniffer.Refresh specCollab (exec0 (some .Unsupported))).calls =
      [.GetUtilization 7, .GetOpenSockets ([], some .Unsupported)] ∧
    puts (Sniffer.Refresh specCollab (exec0 (some .Unsupported))).calls = 0 ∧
    (Sniffer.Refresh specCollab (exec0 (some .Unsupported))).world =
      { world0 (some .Unsupported) with counters := 0 } := by
  decide

/-- C3 as amended: when `GetOpenSockets` fails, `Refresh` returns right after it: the
calls made are `GetUtilization` and `GetOpenSockets` only, nothing is put into the
stats manager and nothing is rendered, and the world is the one `GetOpenSockets`
left. -/
theorem Refresh_failure_returns_early (c : Collab σ Util Socks Stats Err)
    (x : Exec σ Util Socks Stats Err) (u : Util) (w1 w2 : σ) (socks : Socks) (e : Err)
    (hu : c.GetUtilization x.world = (u, w1))
    (hs : c.GetOpenSockets w1 = ((socks, some e), w2)) :
    (Sniffer.Refresh c x).calls =
      x.calls ++ [.GetUtilization u, .GetOpenSockets (socks, some e)] ∧
    puts (Sniffer.Refresh c x).calls = puts x.calls ∧
    (Sniffer.Refresh c x).calls.countP Call.isRender = x.calls.countP Call.isRender ∧
    (Sniffer.Refresh c x).world = w2 := by
  rw [Refresh_of_failure c x hu hs]
  refine ⟨rfl, ?_, ?_, rfl⟩
  · simp [puts, List.countP_append, List.countP_cons, Call.isPut]
  · simp [List.countP_append, List.countP_cons, Call.isRender]

/-- C3 as amended, in the concrete world with a `PermissionDenied` snapshot. -/
theorem Refresh_failure_returns_early_witness :
    (Sniffer.Refresh specCollab (exec0 (some .PermissionDenied))).calls =
      (exec0 (some .PermissionDenied)).calls ++
        [.GetUtilization 7, .GetOpenSockets ([], some .PermissionDenied)] ∧
    puts (Sniffer.Refresh specCollab (exec0 (some .PermissionDenied))).calls =
      puts (exec0 (some .PermissionDenied)).calls ∧
    (Sniffer.Refresh specCollab (exec0 (some .PermissionDenied))).calls.countP Call.isRender =
      (exec0 (some .PermissionDenied)).calls.countP Call.isRender ∧
    (Sniffer.Refresh specCollab (exec0 (some .PermissionDenied))).world =
      { world0 (some .PermissionDenied) with counters := 0 } :=
  Refresh_failure_returns_early specCollab (exec0 (some .PermissionDenied)) 7
    { world0 (some .PermissionDenied) with counters := 0 }
    { world0 (some .PermissionDenied) with counters := 0 } [] .PermissionDenied rfl rfl

end RefreshClaims

/-! ## `Close` -/

section CloseClaims

variable {σ Util Socks Stats Err : Type}

theorem Close_world_idempotent_of (c : Collab σ Util Socks Stats Err)
    (hp : ∀ w, c.PcapClose (c.PcapClose w) = c.PcapClose w)
    (hd : ∀ w, c.DnsClose (c.DnsClose w) = c.DnsClose w)
    (hui : ∀ w, c.UiClose (c.UiClose w) = c.UiClose w)
    (hpd : ∀ w, c.PcapClose (c.DnsClose w) = c.DnsClose (c.PcapClose w))
    (hpu : ∀ w, c.PcapClose (c.UiClose w) = c.UiClose (c.PcapClose w))
    (hdu : ∀ w, c.DnsClose (c.UiClose w) = c.UiClose (c.DnsClose w))
    (x : Exec σ Util Socks Stats Err) :
    (Sniffer.Close c (Sniffer.Close c x)).world = (Sniffer.Close c x).world := by
  simp only [Sniffer.Close]
  rw [hpu, hpd, hp, hdu, hd, hui]

/-- C6 fails as stated: `Close` logs `PcapClose`, `DnsClose`, `UiClose` in this order,
so the call of `dnsResolver.Close` does not come before the call of
`pcapClient.Close`. -/
theorem Close_does_not_stop_resolver_first :
    (Sniffer.Close specCollab (exec0 none)).calls = [.PcapClose, .DnsClose, .UiClose] ∧
    ¬ ((Sniffer.Close specCollab (exec0 none)).calls.indexOf .DnsClose <
        (Sniffer.Close specCollab (exec0 none)).calls.indexOf .PcapClose) := by
  decide

/-- C6 as amended: `Close` calls `pcapClient.Close` first, then `dnsResolver.Close`,
then `ui.Close`: the capture client is closed before the DNS resolver is. -/
theorem Close_order (c : Collab σ Util Socks Stats Err) (x : Exec σ Util Socks Stats Err) :
    (Sniffer.Close c x).calls = x.calls ++ [.PcapClose, .DnsClose, .UiClose] ∧
    (Sniffer.Close c x).world = c.UiClose (c.DnsClose (c.PcapClose x.world)) :=
  ⟨rfl, rfl⟩

/-- C8 fails as stated: `Close` has no guard, so a second `Close` calls
`pcapClient.Close`, `dnsResolver.Close` and `ui.Close` once more; with a
`dnsResolver.Close` that counts its calls the world after the second `Close` (2) is
not the world after the first (1). -/
theorem Close_twice_differs_without_guard :
    (Sniffer.Close tallyCollab (Sniffer.Close tallyCollab tally0)).calls =
      [.PcapClose, .DnsClose, .UiClose, .PcapClose, .DnsClose, .UiClose] ∧
    (Sniffer.Close tallyCollab tally0).world = 1 ∧
    (Sniffer.Close tallyCollab (Sniffer.Close tallyCollab tally0)).world = 2 ∧
    (Sniffer.Close tallyCollab (Sniffer.Close tallyCollab tally0)).world ≠
      (Sniffer.Close tallyCollab tally0).world := by
  decide

/-- C8 as amended: `Close` keeps no state of its own and has no guard: a second `Close`
makes the same three calls again, in the same order, on the world the first `Close`
left; it leaves that world as it is whenever each of the three `Close` methods is
idempotent and the three commute with one another. -/
theorem Close_twice_repeats_the_calls (c : Collab σ Util Socks Stats Err)
    (x : Exec σ Util Socks Stats Err) :
    (Sniffer.Close c (Sniffer.Close c x)).calls =
      (Sniffer.Close c x).calls ++ [.PcapClose, .DnsClose, .UiClose] ∧
    (Sniffer.Close c (Sniffer.Close c x)).world =
      c.UiClose (c.DnsClose (c.PcapClose (Sniffer.Close c x).world)) ∧
    ((∀ w, c.PcapClose (c.PcapClose w) = c.PcapClose w) →
      (∀ w, c.DnsClose (c.DnsClose w) = c.DnsClose w) →
      (∀ w, c.UiClose (c.UiClose w) = c.UiClose w) →
      (∀ w, c.PcapClose (c.DnsClose w) = c.DnsClose (c.PcapClose w)) →
      (∀ w, c.PcapClose (c.UiClose w) = c.UiClose (c.PcapClose w)) →
      (∀ w, c.DnsClose (c.UiClose w) = c.UiClose (c.DnsClose w)) →
      (Sniffer.Close c (Sniffer.Close c x)).world = (Sniffer.Close c x).world) :=
  ⟨rfl, rfl, fun hp hd hui hpd hpu hdu =>
    Close_world_idempotent_of c hp hd hui hpd hpu hdu x⟩

/-- C8 as amended, in the concrete world, whose three `Close` methods release what
they hold: the second `Close` repeats the three calls and leaves the world as the
first `Close` left it. -/
theorem Close_twice_repeats_the_calls_witness :
    (Sniffer.Close specCollab (Sniffer.Close specCollab (exec0 none))).calls =
      (Sniffer.Close specCollab (exec0 none)).calls ++ [.PcapClose, .DnsClose, .UiClose] ∧
    (Sniffer.Close specCollab (Sniffer.Close specCollab (exec0 none))).world =
      (Sniffer.Close specCollab (exec0 none)).world :=
  ⟨(Close_twice_repeats_the_calls specCollab (exec0 none)).1,
   (Close_twice_repeats_the_calls specCollab (exec0 none)).2.2
     (fun _ => rfl) (fun _ => rfl) (fun _ => rfl) (fun _ => rfl) (fun _ => rfl)
     (fun _ => rfl)⟩

end CloseClaims

/-! ## `NewSniffer` -/

section NewSnifferClaims

variable {σ VM U DR PC SM UI SF L E : Type}

/-- C5: `NewSniffer` returns either a nil sniffer with the error of `NewPcapClient`, and
then only `NewDnsResolver` and `NewPcapClient` have been called, or a nil error with a
sniffer whose six fields hold the options and the results of the five constructors;
it never returns a sniffer together with an error, nor neither of them. -/
theorem NewSniffer_all_or_nothing (k : Ctors σ VM U DR PC SM UI SF L E)
    (opts : Options VM U) (w w1 w2 : σ) (dr : DR) (pc : PC) (err : Option E)
    (hd : k.NewDnsResolver w = (dr, w1))
    (hp : k.NewPcapClient (k.Lookup dr) opts w1 = ((pc, err), w2)) :
    (∀ e, err = some e →
      NewSniffer k opts w =
        { sniffer := none, err := some e, world := w2,
          calls := [.NewDnsResolver, .NewPcapClient] }) ∧
    (err = none →
      (NewSniffer k opts w).err = none ∧
      (NewSniffer k opts w).sniffer = some
        { opts := opts
          dnsResolver := dr
          pcapClient := pc
          statsManager := (k.NewStatsManager opts w2).1
          ui := (k.NewUIComponent opts (k.NewStatsManager opts w2).2).1
          socketFetcher :=
            (k.GetSocketFetcher (k.NewUIComponent opts (k.NewStatsManager opts w2).2).2).1 } ∧
      (NewSniffer k opts w).calls =
        [.NewDnsResolver, .NewPcapClient, .NewStatsManager, .NewUIComponent,
          .GetSocketFetcher]) ∧
    ((NewSniffer k opts w).sniffer = none ↔ (NewSniffer k opts w).err ≠ none) := by
  cases err with
  | some e =>
    have h : NewSniffer k opts w =
        { sniffer := none, err := some e, world := w2,
          calls := [.NewDnsResolver, .NewPcapClient] } := by
      simp only [NewSniffer, hd, hp]
    refine ⟨?_, ?_, ?_⟩
    · intro e2 he
      cases he
      exact h
    · intro he
      cases he
    · rw [h]
      simp
  | none =>
    have h : NewSniffer k opts w =
        { sniffer := some
            { opts := opts
              dnsResolver := dr
              pcapClient := pc
              statsManager := (k.NewStatsManager opts w2).1
              ui := (k.NewUIComponent opts (k.NewStatsManager opts w2).2).1
              socketFetcher :=
                (k.GetSocketFetcher
                  (k.NewUIComponent opts (k.NewStatsManager opts w2).2).2).1 }
          err := none
          world :=
            (k.GetSocketFetcher (k.NewUIComponent opts (k.NewStatsManager opts w2).2).2).2
          calls := [.NewDnsResolver, .NewPcapClient, .NewStatsManager, .NewUIComponent,
            .GetSocketFetcher] } := by
      simp only [NewSniffer, hd, hp]
    refine ⟨?_, ?_, ?_⟩
    · intro e he
      cases he
    · intro _
      rw [h]
      exact ⟨rfl, rfl, rfl⟩
    · rw [h]
      simp

/-- C5, on two concrete hosts: without capture privileges `NewPcapClient` fails with
`PermissionDenied` and `NewSniffer` returns nil with that error after two constructor
calls; with them `NewSniffer` returns a sniffer with all six fields set and a nil
error. -/
theorem NewSniffer_all_or_nothing_witness :
    NewSniffer specCtors (DefaultOptions specDecls) (host0 false) =
      { sniffer := none, err := some .PermissionDenied,
        world := { host0 false with resolvers := 1 },
        calls := [.NewDnsResolver, .NewPcapClient] } ∧
    ((NewSniffer specCtors (DefaultOptions specDecls) (host0 true)).err = none ∧
      (NewSniffer specCtors (DefaultOptions specDecls) (host0 true)).sniffer = some
        { opts := DefaultOptions specDecls
          dnsResolver := 1
          pcapClient := 1
          statsManager := 1
          ui := 1
          socketFetcher := 1 } ∧
      (NewSniffer specCtors (DefaultOptions specDecls) (host0 true)).calls =
        [.NewDnsResolver, .NewPcapClient, .NewStatsManager, .NewUIComponent,
          .GetSocketFetcher]) :=
  ⟨(NewSniffer_all_or_nothing specCtors (DefaultOptions specDecls) (host0 false)
      { host0 false with resolvers := 1 } { host0 false with resolvers := 1 } 1 0
      (some .PermissionDenied) rfl rfl).1 .PermissionDenied rfl,
   (NewSniffer_all_or_nothing specCtors (DefaultOptions specDecls) (host0 true)
      { host0 true with resolvers := 1 } { host0 true with resolvers := 1, handles := 1 } 1 1
      none rfl rfl).2.1 rfl⟩

end NewSnifferClaims

/-! ## The loop of `Start` -/

section LoopLemmas

variable {σ Util Socks Stats Err : Type}

theorem loop_of_not_running (c : Collab σ Util Socks Stats Err)
    (l : Loop σ Util Socks Stats Err) (inputs : List Input) (h : l.status ≠ .running) :
    Start.loop c l inputs = l := by
  cases inputs with
  | nil => rfl
  | cons i rest =>
    unfold Start.loop
    split
    · next hs => exact absurd hs h
    · rfl

theorem loop_cons_of_running (c : Collab σ Util Socks Stats Err)
    (l : Loop σ Util Socks Stats Err) (i : Input) (rest : List Input)
    (h : l.status = .running) :
    Start.loop c l (i :: rest) = Start.loop c (Start.step c l i) rest := by
  rw [Start.loop]
  simp only [h]

theorem loop_append (c : Collab σ Util Socks Stats Err) (l : Loop σ Util Socks Stats Err)
    (a b : List Input) :
    Start.loop c l (a ++ b) = Start.loop c (Start.loop c l a) b := by
  induction a generalizing l with
  | nil => rfl
  | cons i rest ih =>
    by_cases h : l.status = .running
    · rw [List.cons_append, loop_cons_of_running c l i _ h, loop_cons_of_running c l i _ h, ih]
    · rw [loop_of_not_running c l _ h, loop_of_not_running c l _ h,
        loop_of_not_running c l _ h]

theorem step_tick_paused (c : Collab σ Util Socks Stats Err) (l : Loop σ Util Socks Stats Err)
    (h : l.paused = true) : Start.step c l .tick = l := by
  simp [Start.step, h]

theorem step_tick_unpaused (c : Collab σ Util Socks Stats Err)
    (l : Loop σ Util Socks Stats Err) (h : l.paused = false) :
    Start.step c l .tick = { l with exec := Sniffer.Refresh c l.exec } := by
  simp [Start.step, h]

theorem step_event_drains (c : Collab σ Util Socks Stats Err)
    (l : Loop σ Util Socks Stats Err) (e : Event) :
    drains (Start.step c l (.event e)).exec.calls = drains l.exec.calls := by
  simp only [Start.step]
  split_ifs
  · simp [drains, List.countP_append, List.countP_cons, Call.isGetUtilization]
  · rfl
  · cases e.Payload with
    | Resize width height =>
      simp [drains, List.countP_append, List.countP_cons, Call.isGetUtilization]
    | Other => rfl
  · rfl
  · rfl

theorem step_paused (c : Collab σ Util Socks Stats Err) (l : Loop σ Util Socks Stats Err)
    (i : Input) : (Start.step c l i).paused = (l.paused ^^ i.isSpace) := by
  cases i with
  | tick =>
    cases hp : l.paused <;> simp [Start.step, hp, Input.isSpace]
  | event e =>
    simp only [Start.step]
    split_ifs with h1 h2 h3 h4
    · have : e.ID ≠ "<Space>" := by rw [h1]; decide
      simp [Input.isSpace, this]
    · simp [Input.isSpace, h2]
    · cases e.Payload <;> simp [Input.isSpace, h2]
    · simp [Input.isSpace, h2]
    · simp [Input.isSpace, h2]

theorem step_drains (c : Collab σ Util Socks Stats Err) (l : Loop σ Util Socks Stats Err)
    (i : Input) :
    drains (Start.step c l i).exec.calls =
      drains l.exec.calls + if i = .tick ∧ l.paused = false then 1 else 0 := by
  cases i with
  | event e => simp [step_event_drains]
  | tick =>
    cases hp : l.paused
    · rw [step_tick_unpaused c l hp]
      simp [drains_Refresh]
    · rw [step_tick_paused c l hp]
      simp

theorem unpausedTicksFrom_of_not_running (c : Collab σ Util Socks Stats Err)
    (l : Loop σ Util Socks Stats Err) (inputs : List Input) (h : l.status ≠ .running) :
    unpausedTicksFrom c l inputs = 0 := by
  unfold unpausedTicksFrom
  rw [List.countP_eq_zero]
  intro n _
  simp [loop_of_not_running c l _ h, h]

theorem unpausedTicksFrom_cons (c : Collab σ Util Socks Stats Err)
    (l : Loop σ Util Socks Stats Err) (i : Input) (rest : List Input)
    (h : l.status = .running) :
    unpausedTicksFrom c l (i :: rest) =
      (if i = .tick ∧ l.paused = false then 1 else 0) +
        unpausedTicksFrom c (Start.step c l i) rest := by
  unfold unpausedTicksFrom
  rw [List.length_cons, List.range_succ_eq_map, List.countP_cons, List.countP_map,
    Nat.add_comm]
  congr 1
  · cases i <;> cases hp : l.paused <;> simp [Start.loop, h, hp]
  · apply List.countP_congr
    intro n _
    simp [loop_cons_of_running c l i _ h]

theorem loop_drains (c : Collab σ Util Socks Stats Err) (l : Loop σ Util Socks Stats Err)
    (inputs : List Input) :
    drains (Start.loop c l inputs).exec.calls =
      drains l.exec.calls + unpausedTicksFrom c l inputs := by
  induction inputs generalizing l with
  | nil => simp [Start.loop, unpausedTicksFrom]
  | cons i rest ih =>
    by_cases h : l.status = .running
    · rw [loop_cons_of_running c l i rest h, ih, step_drains, unpausedTicksFrom_cons c l i rest h,
        Nat.add_assoc]
    · rw [loop_of_not_running c l _ h, unpausedTicksFrom_of_not_running c l _ h, Nat.add_zero]

theorem loop_paused (c : Collab σ Util Socks Stats Err) (l : Loop σ Util Socks Stats Err)
    (inputs : List Input) (h : (Start.loop c l inputs).status = .running) :
    (Start.loop c l inputs).paused = (l.paused ^^ decide (spaceEvents inputs % 2 = 1)) := by
  induction inputs generalizing l with
  | nil => simp [Start.loop, spaceEvents]
  | cons i rest ih =>
    by_cases hl : l.status = .running
    · rw [loop_cons_of_running c l i rest hl] at h ⊢
      rw [ih _ h, step_paused]
      unfold spaceEvents
      rw [List.countP_cons]
      cases hi : i.isSpace <;> cases hp : l.paused <;>
        rcases Nat.mod_two_eq_zero_or_one (List.countP Input.isSpace rest) with hm | hm <;>
        simp [hm, Nat.add_mod]
    · rw [loop_of_not_running c l _ hl] at h
      exact absurd h hl

theorem loop_no_drain_while_paused (c : Collab σ Util Socks Stats Err)
    (l : Loop σ Util Socks Stats Err) (inputs : List Input)
    (h : ∀ n, n < inputs.length → (Start.loop c l (inputs.take n)).paused = true) :
    drains (Start.loop c l inputs).exec.calls = drains l.exec.calls := by
  induction inputs generalizing l with
  | nil => rfl
  | cons i rest ih =>
    by_cases hl : l.status = .running
    · have h0 : l.paused = true := by
        have := h 0 (by simp)
        simpa [Start.loop] using this
      rw [loop_cons_of_running c l i rest hl, ih, step_drains]
      · simp [h0]
      · intro n hn
        have := h (n + 1) (by simpa using hn)
        rwa [List.take_succ_cons, loop_cons_of_running c l i _ hl] at this
    · rw [loop_of_not_running c l _ hl]

theorem step_tick_status (c : Collab σ Util Socks Stats Err)
    (l : Loop σ Util Socks Stats Err) :
    (Start.step c l .tick).status = l.status ∧ (Start.step c l .tick).paused = l.paused := by
  cases hp : l.paused
  · rw [step_tick_unpaused c l hp]
    exact ⟨rfl, hp⟩
  · rw [step_tick_paused c l hp]
    exact ⟨rfl, hp⟩

theorem step_returned_iff (c : Collab σ Util Socks Stats Err)
    (l : Loop σ Util Socks Stats Err) (i : Input) (h : l.status = .running) :
    (Start.step c l i).status = .returned ↔ ∃ e, i = .event e ∧ e.isQuit := by
  cases i with
  | tick => simp [(step_tick_status c l).1, h]
  | event e =>
    simp only [Start.step]
    split_ifs with h1 h2 h3 h4
    · simp [h, Event.isQuit, h1]
    · simp [h, Event.isQuit, h2]
    · cases e.Payload <;> simp [h, Event.isQuit, h3]
    · simp [Event.isQuit, h4]
    · simp [h, Event.isQuit, h4]

theorem step_not_panicked (c : Collab σ Util Socks Stats Err)
    (l : Loop σ Util Socks Stats Err) (i : Input) (h : l.status ≠ .panicked)
    (hw : i.wellFormed) : (Start.step c l i).status ≠ .panicked := by
  cases i with
  | tick => rw [(step_tick_status c l).1]; exact h
  | event e =>
    simp only [Start.step]
    split_ifs with h1 h2 h3 h4
    · exact h
    · exact h
    · obtain ⟨width, height, hp⟩ := hw h3
      rw [hp]
      exact h
    · simp
    · exact h

theorem loop_not_panicked (c : Collab σ Util Socks Stats Err)
    (l : Loop σ Util Socks Stats Err) (inputs : List Input) (h : l.status ≠ .panicked)
    (hw : ∀ i ∈ inputs, i.wellFormed) : (Start.loop c l inputs).status ≠ .panicked := by
  induction inputs generalizing l with
  | nil => exact h
  | cons i rest ih =>
    by_cases hl : l.status = .running
    · rw [loop_cons_of_running c l i rest hl]
      exact ih _ (step_not_panicked c l i h (hw i (by simp)))
        (fun j hj => hw j (by simp [hj]))
    · rw [loop_of_not_running c l _ hl]
      exact h

theorem loop_returned_iff (c : Collab σ Util Socks Stats Err)
    (l : Loop σ Util Socks Stats Err) (inputs : List Input) (h : l.status = .running) :
    (Start.loop c l inputs).status = .returned ↔
      ∃ pre e post, inputs = pre ++ .event e :: post ∧ e.isQuit ∧
        (Start.loop c l pre).status = .running := by
  constructor
  · intro hr
    induction inputs generalizing l with
    | nil =>
      rw [Start.loop, h] at hr
      cases hr
    | cons i rest ih =>
      rw [loop_cons_of_running c l i rest h] at hr
      by_cases hs : (Start.step c l i).status = .running
      · obtain ⟨pre, e, post, he, hq, hp⟩ := ih _ hs hr
        refine ⟨i :: pre, e, post, by rw [he]; rfl, hq, ?_⟩
        rw [loop_cons_of_running c l i pre h]
        exact hp
      · rw [loop_of_not_running c _ _ hs] at hr
        obtain ⟨e, he, hq⟩ := (step_returned_iff c l i h).1 hr
        exact ⟨[], e, rest, by rw [he]; rfl, hq, h⟩
  · rintro ⟨pre, e, post, he, hq, hp⟩
    have hs : (Start.step c (Start.loop c l pre) (.event e)).status = .returned :=
      (step_returned_iff c _ _ hp).2 ⟨e, rfl, hq⟩
    rw [he, loop_append, loop_cons_of_running c _ _ _ hp, loop_of_not_running c _ _ (by simp [hs])]
    exact hs

theorem step_event_calls (c : Collab σ Util Socks Stats Err)
    (l : Loop σ Util Socks Stats Err) (e : Event) :
    (Start.step c l (.event e)).exec.calls = l.exec.calls ∨
    (Start.step c l (.event e)).exec.calls = l.exec.calls ++ [.Shift] ∨
    ∃ width height,
      (Start.step c l (.event e)).exec.calls = l.exec.calls ++ [.Resize width height] := by
  simp only [Start.step]
  split_ifs with h1 h2 h3 h4
  · exact Or.inr (Or.inl rfl)
  · exact Or.inl rfl
  · cases e.Payload with
    | Resize width height => exact Or.inr (Or.inr ⟨width, height, rfl⟩)
    | Other => exact Or.inl rfl
  · exact Or.inl rfl
  · exact Or.inl rfl

end LoopLemmas

/-! ## `Start` -/

section StartClaims

variable {σ Util Socks Stats Err : Type}

/-- C1: `Start` runs `Refresh` once before the loop, every `Refresh` calls
`GetUtilization` exactly once, and after any inputs the number of `GetUtilization`
calls `Start` has added is one plus the number of ticks received while `paused` was
false.  A tick received while `paused` is false runs one `Refresh`; a tick received
while `paused` is true changes nothing; and over any stretch of inputs each received
while `paused` is true no `GetUtilization` call is made. -/
theorem Start_drains_once_per_unpaused_tick (c : Collab σ Util Socks Stats Err)
    (x : Exec σ Util Socks Stats Err) (inputs : List Input) :
    (Start.init c x).exec = Sniffer.Refresh c x ∧
    (∀ y : Exec σ Util Socks Stats Err,
      drains (Sniffer.Refresh c y).calls = drains y.calls + 1) ∧
    drains (Sniffer.Start c x inputs).exec.calls =
      drains x.calls + 1 + unpausedTicks c x inputs ∧
    (∀ l : Loop σ Util Socks Stats Err, l.paused = false →
      Start.step c l .tick = { l with exec := Sniffer.Refresh c l.exec }) ∧
    (∀ l : Loop σ Util Socks Stats Err, l.paused = true → Start.step c l .tick = l) ∧
    (∀ pre mid : List Input,
      (∀ n, n < mid.length → (Sniffer.Start c x (pre ++ mid.take n)).paused = true) →
      drains (Sniffer.Start c x (pre ++ mid)).exec.calls =
        drains (Sniffer.Start c x pre).exec.calls) := by
  refine ⟨rfl, drains_Refresh c, ?_, step_tick_unpaused c, step_tick_paused c, ?_⟩
  · unfold Sniffer.Start unpausedTicks
    rw [loop_drains]
    show drains (Sniffer.Refresh c x).calls + _ = _
    rw [drains_Refresh]
  · intro pre mid h
    unfold Sniffer.Start at h ⊢
    rw [loop_append]
    apply loop_no_drain_while_paused
    intro n hn
    rw [← loop_append]
    exact h n hn

/-- C1, in the concrete world: of four ticks two arrive while paused; `Start` drains
three times, once before the loop and once for each of the two other ticks. -/
theorem Start_drains_once_per_unpaused_tick_witness :
    drains (Sniffer.Start specCollab (exec0 none)
      [.tick, .event ⟨"<Space>", .Other⟩, .tick, .tick, .event ⟨"<Space>", .Other⟩,
        .tick]).exec.calls =
      drains (exec0 none).calls + 1 +
        unpausedTicks specCollab (exec0 none)
          [.tick, .event ⟨"<Space>", .Other⟩, .tick, .tick, .event ⟨"<Space>", .Other⟩,
            .tick] ∧
    unpausedTicks specCollab (exec0 none)
      [.tick, .event ⟨"<Space>", .Other⟩, .tick, .tick, .event ⟨"<Space>", .Other⟩,
        .tick] = 2 :=
  ⟨(Start_drains_once_per_unpaused_tick specCollab (exec0 none) _).2.2.1, by decide⟩

/-- C10: `Start` enters the loop running with `paused` false; while the loop has not
been left, `paused` is true exactly when the number of `"<Space>"` events received is
odd; a `"<Space>"` event negates `paused` and every other input leaves it as it is;
and an event adds to the call log nothing, or one `Shift`, or one `Resize`, so no
event runs a `Refresh`. -/
theorem Start_paused_iff_odd_spaces (c : Collab σ Util Socks Stats Err)
    (x : Exec σ Util Socks Stats Err) (inputs : List Input) :
    (Start.init c x).paused = false ∧
    (Start.init c x).status = .running ∧
    ((Sniffer.Start c x inputs).status = .running →
      ((Sniffer.Start c x inputs).paused = true ↔ Odd (spaceEvents inputs))) ∧
    (∀ (l : Loop σ Util Socks Stats Err) (e : Event), e.ID = "<Space>" →
      (Start.step c l (.event e)).paused = !l.paused) ∧
    (∀ (l : Loop σ Util Socks Stats Err) (i : Input), i.isSpace = false →
      (Start.step c l i).paused = l.paused) ∧
    (∀ (l : Loop σ Util Socks Stats Err) (e : Event),
      (Start.step c l (.event e)).exec.calls = l.exec.calls ∨
      (Start.step c l (.event e)).exec.calls = l.exec.calls ++ [.Shift] ∨
      ∃ width height,
        (Start.step c l (.event e)).exec.calls = l.exec.calls ++ [.Resize width height]) ∧
    (∀ (l : Loop σ Util Socks Stats Err) (e : Event),
      drains (Start.step c l (.event e)).exec.calls = drains l.exec.calls) := by
  refine ⟨rfl, rfl, ?_, ?_, ?_, step_event_calls c, step_event_drains c⟩
  · intro h
    unfold Sniffer.Start at h ⊢
    rw [loop_paused c _ _ h, Nat.odd_iff]
    simp [Start.init]
  · intro l e he
    rw [step_paused]
    simp [Input.isSpace, he]
  · intro l i hi
    rw [step_paused, hi]
    simp

/-- C10, in the concrete world: after three `"<Space>"` events, a `"<Tab>"`, a tick and
an unrecognised key the loop is still running and `paused` is true. -/
theorem Start_paused_iff_odd_spaces_witness :
    (Sniffer.Start specCollab (exec0 none)
      [.event ⟨"<Space>", .Other⟩, .event ⟨"<Tab>", .Other⟩, .event ⟨"<Space>", .Other⟩,
        .tick, .event ⟨"x", .Other⟩, .event ⟨"<Space>", .Other⟩]).paused = true :=
  ((Start_paused_iff_odd_spaces specCollab (exec0 none) _).2.2.1 (by decide)).2 (by decide)

/-- C4: `Start` has returned exactly when the inputs hold an event with ID `"q"`, `"Q"`
or `"<C-c>"` that was received while the loop was running; with resize events that
carry a `termui.Resize`, as termui delivers them, the loop is never left in another
way.  A tick changes neither the status nor `paused`, whatever `GetOpenSockets`
returns; and when the snapshot fails on a tick received while running and not paused,
the loop goes on in the world that failed `Refresh` left, and the next tick runs
`Refresh` again. -/
theorem Start_returns_only_on_quit (c : Collab σ Util Socks Stats Err)
    (x : Exec σ Util Socks Stats Err) (inputs : List Input) :
    ((Sniffer.Start c x inputs).status = .returned ↔
      ∃ pre e post, inputs = pre ++ .event e :: post ∧ e.isQuit ∧
        (Sniffer.Start c x pre).status = .running) ∧
    ((∀ i ∈ inputs, i.wellFormed) → (Sniffer.Start c x inputs).status ≠ .panicked) ∧
    (∀ l : Loop σ Util Socks Stats Err,
      (Start.step c l .tick).status = l.status ∧ (Start.step c l .tick).paused = l.paused) ∧
    (∀ (l : Loop σ Util Socks Stats Err) (u : Util) (w1 w2 : σ) (socks : Socks) (e : Err),
      l.status = .running → l.paused = false →
      c.GetUtilization l.exec.world = (u, w1) →
      c.GetOpenSockets w1 = ((socks, some e), w2) →
      Start.loop c l [.tick] =
        { l with exec :=
          { world := w2
            calls := l.exec.calls ++ [.GetUtilization u, .GetOpenSockets (socks, some e)] } } ∧
      Start.loop c l [.tick, .tick] =
        { l with exec := Sniffer.Refresh c (Sniffer.Refresh c l.exec) }) := by
  refine ⟨loop_returned_iff c _ inputs rfl, ?_, step_tick_status c, ?_⟩
  · intro hw
    exact loop_not_panicked c _ inputs (by simp [Start.init]) hw
  · intro l u w1 w2 socks e hr hp hu hs
    have h1 : Start.step c l .tick =
        { l with exec :=
          { world := w2
            calls := l.exec.calls ++ [.GetUtilization u, .GetOpenSockets (socks, some e)] } } := by
      rw [step_tick_unpaused c l hp, Refresh_of_failure c l.exec hu hs]
    constructor
    · rw [loop_cons_of_running c l _ _ hr, h1]
      rfl
    · rw [loop_cons_of_running c l _ _ hr, step_tick_unpaused c l hp,
        loop_cons_of_running c { l with exec := Sniffer.Refresh c l.exec } .tick [] hr,
        step_tick_unpaused c { l with exec := Sniffer.Refresh c l.exec } hp]
      rfl

/-- C4, in the concrete world with a snapshot that fails with `Unsupported`: after two
ticks, a resize and an unrecognised key the loop is still running, and `"q"` makes
`Start` return. -/
theorem Start_returns_only_on_quit_witness :
    (Sniffer.Start specCollab (exec0 (some .Unsupported))
      [.tick, .tick, .event ⟨"<Resize>", .Resize 100 40⟩, .event ⟨"x", .Other⟩]).status =
        .running ∧
    (Sniffer.Start specCollab (exec0 (some .Unsupported))
      ([.tick, .tick, .event ⟨"<Resize>", .Resize 100 40⟩, .event ⟨"x", .Other⟩] ++
        .event ⟨"q", .Other⟩ :: [.tick])).status = .returned :=
  ⟨by decide,
   (Start_returns_only_on_quit specCollab (exec0 (some .Unsupported)) _).1.2
     ⟨_, ⟨"q", .Other⟩, [.tick], rfl, by decide, by decide⟩⟩

end StartClaims

end SnifferMain
